import Mathlib

/-!
Verification of the mammoth.js document-body reader against its
specification.  The JavaScript sources are shallowly embedded: JavaScript
objects used as string-keyed registries become association lists (with the
iteration order of the object given by the list order), JavaScript numbers
become rationals, fallible operations return `Option` or a dedicated outcome
type, and the mutable state of one `BodyReader` invocation (the complex-field
stack, the instruction-text buffer and the deleted-paragraph buffer) is
threaded explicitly through the recursive descent.
-/

namespace Mammoth

/-- Association-list lookup, modelling JavaScript property access `obj[key]`
on an object used as a registry: `none` models `undefined` when the key is
absent. -/
def assocLookup {κ α : Type} [DecidableEq κ] : List (κ × α) → κ → Option α
  | [], _ => none
  | (k, v) :: rest, key => if k = key then some v else assocLookup rest key

/-- Association-list assignment, modelling `obj[key] = value`: an existing
key keeps its position and gets the new value, a new key is appended (this is
the insertion-order behaviour of JavaScript string-keyed objects). -/
def assocAssign {κ α : Type} [DecidableEq κ] : List (κ × α) → κ → α → List (κ × α)
  | [], key, value => [(key, value)]
  | (k, v) :: rest, key, value =>
    if k = key then (k, value) :: rest else (k, v) :: assocAssign rest key value

/-! ## Numbering registry (src/lib/docx/numbering-xml.js)

The registry objects below are the already-parsed values that
`readNumberingXml` passes to the `Numbering` constructor; `Level` carries the
fields built by `readAbstractNum`. -/

/-- Font reference of a bullet level, read from `w:rPr`/`w:rFonts` by
`readAbstractNum`. -/
structure BulletFont where
  ascii : Option String
  hAnsi : Option String
  cs : Option String
  hint : Option String
deriving DecidableEq, Repr

/-- Indentation of a level, read from `w:pPr`/`w:ind` by `readAbstractNum`. -/
structure LevelIndentation where
  left : Option String
  hanging : Option String
  firstLine : Option String
deriving DecidableEq, Repr

/-- One list-level definition, with the fields assembled by
`readAbstractNum` in numbering-xml.js. -/
structure Level where
  isOrdered : Bool
  format : Option String
  delimiter : Option String
  level : Option String
  paragraphStyleId : Option String
  justification : Option String
  suffix : Option String
  isTentative : Bool
  startValue : Int
  bulletFont : Option BulletFont
  indentation : Option LevelIndentation
  isBullet : Bool
  isVisibleBullet : Bool
deriving DecidableEq, Repr

/-- A `w:num` entry: `nums[numId] = {abstractNumId: ...}` (`readNums`). -/
structure NumEntry where
  abstractNumId : String
deriving DecidableEq, Repr

/-- A `w:abstractNum` entry: levels keyed by level index, plus an optional
`w:numStyleLink` (`readAbstractNum`). -/
structure AbstractNum where
  levels : List (String × Level)
  numStyleLink : Option String
deriving DecidableEq, Repr

/-- A numbering style, as produced by `readNumberingStyleElement` in
styles-reader.js: the `w:numId` and `w:ilvl` values of the style's
`w:pPr`/`w:numPr`, either of which may be absent. -/
structure NumberingStyle where
  numId : Option String
  level : Option String
deriving DecidableEq, Repr

/-- The three registries captured by the `Numbering` constructor: `nums`,
`abstractNums` and the style registry behind `styles.findNumberingStyleById`. -/
structure NumberingRegistry where
  nums : List (String × NumEntry)
  abstractNums : List (String × AbstractNum)
  numberingStyles : List (String × NumberingStyle)
deriving DecidableEq, Repr

/-- The flattened level list of the `Numbering` constructor:
`_.flatten(_.values(abstractNums).map(a => _.values(a.levels)))`. -/
def allLevels (abstractNums : List (String × AbstractNum)) : List Level :=
  (abstractNums.map (fun a => a.2.levels.map Prod.snd)).flatten

/-- The reverse index of the `Numbering` constructor:
`_.indexBy(allLevels.filter(l => l.paragraphStyleId != null), "paragraphStyleId")`.
underscore's `indexBy` assigns `result[key(x)] = x` for each element in list
order, so a later level with the same paragraph style id overwrites an
earlier one.  The filter guarantees `paragraphStyleId` is present, so the
`getD` default is never used. -/
def levelsByParagraphStyleId (abstractNums : List (String × AbstractNum)) :
    List (String × Level) :=
  ((allLevels abstractNums).filter (fun l => l.paragraphStyleId.isSome)).foldl
    (fun acc l => assocAssign acc (l.paragraphStyleId.getD "") l) []

/-- Outcome of `findLevel`, run with a recursion-depth budget:
`ok` is a normal return (a level, or JavaScript `null`), `typeError` models
the `style.numId` access throwing when `findNumberingStyleById` returned
`undefined`, and `outOfFuel` means the recursion did not return within the
given depth. -/
inductive FindLevelResult where
  | ok (level : Option Level)
  | typeError
  | outOfFuel
deriving DecidableEq, Repr

/-- The `findLevel` closure of the `Numbering` constructor.  `numId` is an
`Option` because the recursive call passes `style.numId`, which may be
absent (JavaScript then looks up `nums[undefined]`, which fails, taking the
`null` branch; no registry key is the literal string "undefined").  The
source recursion carries no cycle guard, so the embedding spends one unit of
fuel per `numStyleLink` redirection. -/
def findLevel (reg : NumberingRegistry) : Nat → Option String → String → FindLevelResult
  | 0, _, _ => .outOfFuel
  | fuel + 1, numId, level =>
    match numId.bind (assocLookup reg.nums) with
    | some num =>
      match assocLookup reg.abstractNums num.abstractNumId with
      | none => .ok none
      | some abstractNum =>
        match abstractNum.numStyleLink with
        | none => .ok (assocLookup abstractNum.levels level)
        | some link =>
          match assocLookup reg.numberingStyles link with
          | none => .typeError
          | some style => findLevel reg fuel style.numId level
    | none => .ok none

/-- The `findLevelByParagraphStyleId` closure:
`levelsByParagraphStyleId[styleId] || null`. -/
def findLevelByParagraphStyleId (abstractNums : List (String × AbstractNum))
    (styleId : String) : Option Level :=
  assocLookup (levelsByParagraphStyleId abstractNums) styleId

/-! ## Supporting lemmas on association lists -/

theorem assocLookup_assign {κ α : Type} [DecidableEq κ]
    (l : List (κ × α)) (k k' : κ) (v : α) :
    assocLookup (assocAssign l k v) k' =
      if k = k' then some v else assocLookup l k' := by
  induction l with
  | nil => simp [assocAssign, assocLookup]
  | cons kv rest ih =>
    obtain ⟨a, b⟩ := kv
    by_cases hak : a = k
    · subst hak
      by_cases hk : a = k' <;> simp [assocAssign, assocLookup, hk]
    · by_cases hak' : a = k'
      · subst hak'
        have hka : k ≠ a := fun h => hak h.symm
        simp [assocAssign, assocLookup, hak, hka]
      · simp [assocAssign, assocLookup, hak, hak', ih]

theorem find?_append_singleton {α : Type} (l : List α) (x : α) (p : α → Bool) :
    (l ++ [x]).find? p =
      match l.find? p with
      | some y => some y
      | none => if p x then some x else none := by
  induction l with
  | nil => by_cases h : p x <;> simp [List.find?, h]
  | cons a rest ih =>
    by_cases h : p a <;> simp [List.find?, h, ih]

theorem assocLookup_indexBy {κ α : Type} [DecidableEq κ] (key : α → κ) (k : κ) :
    ∀ (l : List α) (acc : List (κ × α)),
      assocLookup (l.foldl (fun a x => assocAssign a (key x) x) acc) k =
        match l.reverse.find? (fun x => decide (key x = k)) with
        | some x => some x
        | none => assocLookup acc k := by
  intro l
  induction l with
  | nil => intro acc; simp
  | cons x xs ih =>
    intro acc
    rw [List.foldl_cons, ih, List.reverse_cons, find?_append_singleton]
    rw [assocLookup_assign]
    cases xs.reverse.find? (fun y => decide (key y = k)) with
    | some y => simp
    | none =>
      by_cases h : key x = k <;> simp [h]

theorem filter_reverse_comm {α : Type} (p : α → Bool) (l : List α) :
    (l.filter p).reverse = l.reverse.filter p := by
  induction l with
  | nil => simp
  | cons x xs ih =>
    cases h : p x
    · rw [List.filter_cons_of_neg (by simp [h]), List.reverse_cons,
        List.filter_append, ← ih]
      simp [List.filter_cons, h]
    · rw [List.filter_cons_of_pos h, List.reverse_cons, List.reverse_cons,
        List.filter_append, ← ih]
      simp [List.filter_cons, h]

theorem find?_filter_agree {α : Type} (l : List α) (q p p' : α → Bool)
    (hagree : ∀ x, q x = true → p' x = p x)
    (himp : ∀ x, p x = true → q x = true) :
    (l.filter q).find? p' = l.find? p := by
  induction l with
  | nil => simp
  | cons x xs ih =>
    by_cases hq : q x
    · rw [List.filter_cons_of_pos hq]
      rw [List.find?_cons, List.find?_cons, hagree x hq]
      cases hp : p x <;> simp [hp, ih]
    · have hp : p x = false := by
        cases hpx : p x
        · rfl
        · exact absurd (himp x hpx) (by simp [hq])
      rw [List.filter_cons_of_neg (by simp [hq])]
      simp [List.find?_cons, hp, ih]

/-! ## Claim C2: findLevel on a numStyleLink cycle -/

/-- A registry whose numStyleLink chain is cyclic: numId "1" maps to abstract
numbering "10", which carries `numStyleLink` "ListStyle", and the numbering
style "ListStyle" points back at numId "1". -/
def cycleRegistry : NumberingRegistry :=
  { nums := [("1", ⟨"10"⟩)],
    abstractNums := [("10", ⟨[], some "ListStyle"⟩)],
    numberingStyles := [("ListStyle", ⟨some "1", none⟩)] }

/-- C2: the claim says `findLevel` terminates and returns a level or null
even when the numStyleLink redirection chain is cyclic.  The source
recursion carries no cycle guard: on `cycleRegistry` the call
`findLevel("1", "0")` reaches itself again after one redirection, so it
never returns at any recursion depth — the fuelled embedding runs out of
fuel for every fuel value, meaning the JavaScript original recurses
forever instead of returning null. -/
theorem c2_findLevel_cycle_never_returns (fuel : Nat) :
    findLevel cycleRegistry fuel (some "1") "0" = .outOfFuel := by
  induction fuel with
  | zero => rfl
  | succ n ih => exact ih

/-! ## Claim C8: the reverse index from paragraph style id to level -/

/-- A level as `readAbstractNum` would produce for a decimal format with
`w:pStyle` "ListParagraph". -/
def lvlDecimal : Level :=
  { isOrdered := true, format := some "decimal", delimiter := some "%1.",
    level := some "0", paragraphStyleId := some "ListParagraph",
    justification := none, suffix := none, isTentative := false,
    startValue := 1, bulletFont := none, indentation := none,
    isBullet := false, isVisibleBullet := false }

/-- A second level naming the same paragraph style, bullet-formatted so that
it differs from `lvlDecimal`. -/
def lvlBullet : Level :=
  { lvlDecimal with isOrdered := false, format := some "bullet", isBullet := true }

/-- Two abstract numbering definitions whose only levels both reference
paragraph style "ListParagraph"; `lvlDecimal` (in abstract num "1") comes
first in definition order, `lvlBullet` (in abstract num "2") comes last. -/
def dupStyleAbstractNums : List (String × AbstractNum) :=
  [("1", ⟨[("0", lvlDecimal)], none⟩), ("2", ⟨[("0", lvlBullet)], none⟩)]

/-- C8 counterexample: the claim says the first level in definition order
wins when several levels reference the same paragraph style id, which here
would be `lvlDecimal`; the reverse index actually returns `lvlBullet`, the
last such level, because underscore's `indexBy` lets later assignments
overwrite earlier ones. -/
theorem c8_counterexample_first_level_loses :
    findLevelByParagraphStyleId dupStyleAbstractNums "ListParagraph" = some lvlBullet ∧
      lvlBullet ≠ lvlDecimal := by
  constructor
  · rfl
  · decide

/-- C8 (amended): the reverse index maps a paragraph style id to the LAST
level referencing it across the abstract numbering definitions in
definition order (later definitions overwrite earlier ones), and
`findLevelByParagraphStyleId` returns exactly that level, or none when no
level names the style id. -/
theorem c8_reverse_index_is_last_level (abstractNums : List (String × AbstractNum))
    (styleId : String) :
    findLevelByParagraphStyleId abstractNums styleId =
      (allLevels abstractNums).reverse.find?
        (fun l => decide (l.paragraphStyleId = some styleId)) := by
  unfold findLevelByParagraphStyleId levelsByParagraphStyleId
  rw [assocLookup_indexBy]
  rw [filter_reverse_comm]
  rw [find?_filter_agree ((allLevels abstractNums).reverse)
    (fun l => l.paragraphStyleId.isSome)
    (fun l => decide (l.paragraphStyleId = some styleId))
    (fun l => decide (l.paragraphStyleId.getD "" = styleId))
    ?_ ?_]
  · cases (allLevels abstractNums).reverse.find?
      (fun l => decide (l.paragraphStyleId = some styleId)) <;> simp [assocLookup]
  · intro x hx
    cases hps : x.paragraphStyleId with
    | none => simp [hps] at hx
    | some s => simp [hps]
  · intro x hx
    cases hps : x.paragraphStyleId with
    | none => simp [hps] at hx
    | some s => simp [hps]

/-! ## Unit conversion (convertToPixels in the body reader) -/

/-- Translation of `convertToPixels(rawValue, unitType)`: a `switch` on the
unit-type string, falling through to a pixel passthrough for "px" and any
unknown unit.  JavaScript numbers are modelled as rationals; the arithmetic
expressions are taken verbatim from the source (`2.54` is the exact rational
254/100). -/
def convertToPixels (rawValue : ℚ) (unitType : String) : ℚ :=
  if unitType = "EMU" then rawValue * (96 / 914400)
  else if unitType = "DXA" then (rawValue / 20) * (96 / 72)
  else if unitType = "pt" then rawValue * (96 / 72)
  else if unitType = "cm" then rawValue * (96 / 2.54)
  else if unitType = "in" then rawValue * 96
  else rawValue

/-- C5 counterexample: the claim asserts that 240 DXA converts to exactly
96 px, but by the claim's own DXA formula (value/20) × 96/72 the code
converts 240 DXA to exactly 16 px. -/
theorem c5_counterexample_240_dxa :
    convertToPixels 240 "DXA" = 16 ∧ (16 : ℚ) ≠ 96 := by
  constructor
  · simp [convertToPixels]; norm_num
  · norm_num

/-- C5 (amended): `convertToPixels` maps every numeric value exactly by
EMU → value × 96/914400, DXA → (value/20) × 96/72, pt → value × 96/72,
cm → value × 96/2.54, in → value × 96; in particular 914400 EMU and 72 pt
each convert to exactly 96 px, while 240 DXA converts to exactly 16 px
(1440 DXA converts to 96 px). -/
theorem c5_convertToPixels_exact (v : ℚ) :
    convertToPixels v "EMU" = v * (96 / 914400) ∧
    convertToPixels v "DXA" = (v / 20) * (96 / 72) ∧
    convertToPixels v "pt" = v * (96 / 72) ∧
    convertToPixels v "cm" = v * (96 / 2.54) ∧
    convertToPixels v "in" = v * 96 ∧
    convertToPixels 914400 "EMU" = 96 ∧
    convertToPixels 240 "DXA" = 16 ∧
    convertToPixels 1440 "DXA" = 96 ∧
    convertToPixels 72 "pt" = 96 := by
  refine ⟨?_, ?_, ?_, ?_, ?_, ?_, ?_, ?_, ?_⟩ <;> simp [convertToPixels] <;> norm_num

/-! ## Element tree (the external XML collaborator)

Modelled from the spec: the Element Tree collaborator is "parsed XML node
with a qualified name, an attribute mapping, and an ordered list of child
nodes; exposes first matching child by name" queries; the xml module itself
is not under src/.  `firstOrEmpty` substitutes an empty element (no
attributes, no children) when the child is absent, and `text` yields the
value of a single text child. -/

inductive XmlNode where
  | element (name : String) (attributes : List (String × String)) (children : List XmlNode)
  | text (value : String)

/-- The child list of a node (a text node has none). -/
def XmlNode.children : XmlNode → List XmlNode
  | .element _ _ cs => cs
  | .text _ => []

/-- Attribute access `element.attributes[key]`. -/
def XmlNode.attr : XmlNode → String → Option String
  | .element _ attrs _, key => assocLookup attrs key
  | .text _, _ => none

/-- The first child element with the given name (text children never match). -/
def XmlNode.first (el : XmlNode) (name : String) : Option XmlNode :=
  el.children.find? (fun c =>
    match c with
    | .element n _ _ => n = name
    | .text _ => false)

/-- `xml.emptyElement`: an element with no attributes and no children. -/
def XmlNode.emptyElement : XmlNode := .element "" [] []

/-- `element.firstOrEmpty(name)`. -/
def XmlNode.firstOrEmpty (el : XmlNode) (name : String) : XmlNode :=
  (el.first name).getD XmlNode.emptyElement

/-- `element.text()` for the leaf elements the reader reads text from
(`w:t`, `w:delText`, `w:instrText`): the value of the single text child,
or the empty string when there are no children. -/
def XmlNode.textContent : XmlNode → String
  | .element _ _ [.text v] => v
  | _ => ""

/-! ## Messages and the ReadResult accumulator -/

/-- A non-fatal message, as produced by `warning(text)` in lib/results.js. -/
inductive Message where
  | warning (text : String)
deriving DecidableEq, Repr

/-- Options of a Hyperlink node: a complex-field hyperlink carries only
`href` or only `anchor`; the `w:hyperlink` element reader additionally sets
`targetFrame`. -/
structure HyperlinkOptions where
  href : Option String
  anchor : Option String
  targetFrame : Option String
deriving DecidableEq, Repr

/-- Result of `readStyle`: `{styleId: ..., name: ...}`. -/
structure StyleRef where
  styleId : Option String
  name : Option String
deriving DecidableEq, Repr

/-- Result of `readParagraphIndent`. -/
structure ParagraphIndent where
  left : Option String
  right : Option String
  start : Option String
  end_ : Option String
  firstLine : Option String
  hanging : Option String
deriving DecidableEq, Repr

/-- Result of `readSpacingProperties`: the `w:spacing` attributes. -/
structure SpacingProperties where
  after : Option String
  before : Option String
  line : Option String
  lineRule : Option String
deriving DecidableEq, Repr

/-- Result of `readNumberingProperties` when non-null: the level fields
merged with the numbering id and bullet visibility information. -/
structure NumberingAttrs where
  levelInfo : Level
  numId : Option String
  isVisibleBulletList : Bool
  bulletCharacter : Option String
deriving DecidableEq, Repr

/-- Paragraph properties assembled by `readParagraphProperties`. -/
structure ParagraphProperties where
  styleId : Option String
  styleName : Option String
  alignment : Option String
  numbering : Option NumberingAttrs
  indent : ParagraphIndent
  spacing : SpacingProperties
deriving DecidableEq, Repr

/-- Run properties assembled by `readRunProperties`.  `fontSize` is the
half-point `w:sz` value halved (a rational). -/
structure RunProperties where
  styleId : Option String
  styleName : Option String
  verticalAlignment : Option String
  font : Option String
  fontSize : Option ℚ
  color : Option String
  isBold : Bool
  isUnderline : Bool
  isItalic : Bool
  isStrikethrough : Bool
  isAllCaps : Bool
  isSmallCaps : Bool
  highlight : Option String
  shading : Option String
deriving DecidableEq, Repr

/-- The crop rectangle read from `a:srcRect` (percent-thousandths). -/
structure CropRect where
  left : Int
  top : Int
  right : Int
  bottom : Int
deriving DecidableEq, Repr

/-- Image formatting options from `parseImageProperties`. -/
structure ImageFormatting where
  floating : Option String
  wrappingStyle : Option String
  alignmentH : Option String
  alignmentV : Option String
  positionOffsetH : Option Int
  positionOffsetV : Option Int
deriving DecidableEq, Repr

/-- The attributes of an Image node built by `readImage`.  The byte-reading
thunk (`readImage: imageFile.read`) is I/O and is represented by the image
file's `path`; the remaining fields are carried exactly as the source
stores them. -/
structure ImageAttrs where
  path : String
  altText : Option String
  contentType : Option String
  width : Option ℚ
  height : Option ℚ
  imageProperties : Option ImageFormatting
  srcRect : Option CropRect
  isCropped : Bool
deriving DecidableEq, Repr

/-- Properties of a table cell built by `readTableCell`; `rowSpan` starts at
1 (modelled from the spec: the document-model `TableCell` constructor, which
is not under src/, gives a cell "row-span 1" until the merge pass increments
it).  The detailed border record is not needed by any claim and is omitted. -/
structure TableCellProperties where
  colSpan : Nat
  rowSpan : Nat
  width : Option ℚ
  bgColor : Option String
deriving DecidableEq, Repr

/-- The document nodes produced by the parts of the body reader embedded
here.  `tableCell` additionally carries the transient `_vMerge` expando the
table reader bolts onto cells (`none` when no `w:vMerge` element was
present); `calculateRowSpans` deletes it again, leaving `none`. -/
inductive DocNode where
  | text (value : String)
  | tab
  | lineBreak
  | pageBreak
  | columnBreak
  | bookmarkStart (name : Option String)
  | checkbox (checked : Bool)
  | hyperlink (children : List DocNode) (options : HyperlinkOptions)
  | run (children : List DocNode) (properties : RunProperties)
  | paragraph (children : List DocNode) (properties : ParagraphProperties)
  | image (attrs : ImageAttrs)
  | tableRow (children : List DocNode) (isHeader : Bool)
  | tableCell (children : List DocNode) (properties : TableCellProperties)
      (vMerge : Option Bool)

/-- The `ReadResult` of the body reader, monomorphised to document nodes:
`value` is the produced node or node list (`element || []` in the source,
flattened), `extra` the floated-up sibling content, `messages` the
accumulated warnings. -/
structure ReadResult where
  value : List DocNode
  extra : List DocNode
  messages : List Message

/-- `emptyResult()`. -/
def emptyResult : ReadResult := ⟨[], [], []⟩

/-- `emptyResultWithMessages(messages)`. -/
def emptyResultWithMessages (messages : List Message) : ReadResult :=
  ⟨[], [], messages⟩

/-- `elementResult(element)` for a single node. -/
def elementResult (element : DocNode) : ReadResult := ⟨[element], [], []⟩

/-- `elementResultWithMessages(element, messages)` for a single node. -/
def elementResultWithMessages (element : DocNode) (messages : List Message) :
    ReadResult :=
  ⟨[element], [], messages⟩

/-- `insertExtra()`: when extra content is pending, append it after the
value and clear the extra channel. -/
def ReadResult.insertExtra (r : ReadResult) : ReadResult :=
  if r.extra.length ≠ 0 then ⟨r.value ++ r.extra, [], r.messages⟩ else r

/-- `toExtra()`: demote the value into the extra channel
(`joinElements(this.extra, this.value)`). -/
def ReadResult.toExtra (r : ReadResult) : ReadResult :=
  ⟨[], r.extra ++ r.value, r.messages⟩

/-- A property-reader result (the source uses the same `ReadResult` type
with a non-node value; the only operations applied to it are `map` and the
static `ReadResult.map`, so it is monomorphised here to a value plus
messages, with its always-empty extra channel dropped). -/
structure PropsResult (α : Type) where
  value : α
  messages : List Message
deriving DecidableEq, Repr

/-- `map` on a property result: transforms the value, keeps the messages. -/
def PropsResult.map {α β : Type} (r : PropsResult α) (f : α → β) : PropsResult β :=
  ⟨f r.value, r.messages⟩

/-- The static `ReadResult.map(first, second, func)` as the source applies
it: `first` is a property result (whose extra channel is empty), `second` a
node result; the value becomes the single node `func(first.value,
second.value)`, extras are joined (hence `second`'s extras), and messages
are concatenated first-then-second. -/
def ReadResult.mapWith {α : Type} (first : PropsResult α) (second : ReadResult)
    (f : α → List DocNode → DocNode) : ReadResult :=
  ⟨[f first.value second.value], second.extra, first.messages ++ second.messages⟩

/-- `combineResults(results)`: values are concatenated in input order
(`_.flatten(_.pluck(result.value, "element"))`), extras flattened and
filtered for truthiness (no modelled extra is falsy, so the filter is the
identity here), and messages concatenated in input order.  The message
concatenation comes from `Result.combine`; modelled from the spec:
lib/results.js is not under src/, and the spec requires `combine` to
"merge an ordered sequence of results into one, concatenating values,
flattening extras, and concatenating messages in input order" with
warnings surviving "every combination/merge step undropped". -/
def combineResults (results : List ReadResult) : ReadResult :=
  ⟨(results.map ReadResult.value).flatten,
   (results.map ReadResult.extra).flatten,
   (results.map ReadResult.messages).flatten⟩

/-! ## Style lookup and property readers -/

/-- A style entry as `readStyleElement` in styles-reader.js produces it. -/
structure Style where
  type : Option String
  styleId : Option String
  name : Option String
deriving DecidableEq, Repr

/-- The interface of the style registry the body reader consumes
(`options.styles`): the three typed lookups used by `readStyle`. -/
structure StylesInterface where
  findParagraphStyleById : String → Option Style
  findCharacterStyleById : String → Option Style
  findTableStyleById : String → Option Style

/-- The interface of the numbering registry the body reader consumes
(`options.numbering`). -/
structure NumberingInterface where
  findLevel : String → String → Option Level
  findLevelByParagraphStyleId : String → Option Level
  isVisibleBulletList : String → String → Bool
  getBulletCharacter : String → String → Option String

/-- The options of one body-reader invocation; the zip-file and
relationship collaborators are reduced to the lookups the embedded readers
use. -/
structure BodyOptions where
  styles : StylesInterface
  numbering : NumberingInterface
  contentTypes : String → Option String

/-- `undefinedStyleWarning(type, styleId)`. -/
def undefinedStyleWarning (styleType : String) (styleId : String) : Message :=
  .warning (styleType ++ " style with ID " ++ styleId ++
    " was referenced but not defined in the document")

/-- `readStyle(element, styleTagName, styleType, findStyleById)`: finds the
style-reference child, keeps its `w:val` as the style id, and resolves the
display name through the registry; a present, truthy (non-empty) id that
the registry does not know yields a null name and exactly one
"undefined style" warning.  The `if (styleId)` truthiness test skips the
lookup for an absent or empty id. -/
def readStyle (element : XmlNode) (styleTagName : String) (styleType : String)
    (findStyleById : String → Option Style) : PropsResult StyleRef :=
  match element.first styleTagName with
  | none => ⟨⟨none, none⟩, []⟩
  | some styleElement =>
    match styleElement.attr "w:val" with
    | none => ⟨⟨none, none⟩, []⟩
    | some styleId =>
      if styleId = "" then ⟨⟨some styleId, none⟩, []⟩
      else
        match findStyleById styleId with
        | some style => ⟨⟨some styleId, style.name⟩, []⟩
        | none => ⟨⟨some styleId, none⟩, [undefinedStyleWarning styleType styleId]⟩

/-- `readParagraphStyle(element)`. -/
def readParagraphStyle (o : BodyOptions) (element : XmlNode) : PropsResult StyleRef :=
  readStyle element "w:pStyle" "Paragraph" o.styles.findParagraphStyleById

/-- `readRunStyle(element)`. -/
def readRunStyle (o : BodyOptions) (element : XmlNode) : PropsResult StyleRef :=
  readStyle element "w:rStyle" "Run" o.styles.findCharacterStyleById

/-- `readBooleanElement(element)`: a present element whose `w:val` is
neither "false" nor "0" (including an absent `w:val`) counts as true. -/
def readBooleanElement : Option XmlNode → Bool
  | some element =>
    match element.attr "w:val" with
    | some value => value ≠ "false" && value ≠ "0"
    | none => true
  | none => false

/-- `readUnderline(element)`: like `readBooleanElement` but an absent
`w:val` and the value "none" also count as false. -/
def readUnderline : Option XmlNode → Bool
  | some element =>
    match element.attr "w:val" with
    | some value => value ≠ "false" && value ≠ "0" && value ≠ "none"
    | none => false
  | none => false

/-- `readHighlightValue(value)`: absent, empty and "none" become null. -/
def readHighlightValue : Option String → Option String
  | some value => if value = "" ∨ value = "none" then none else some value
  | none => none

/-- The regex test `/^[0-9]+$/.test(s)` (an absent attribute stringifies to
"undefined" and fails the test, hence the `none` case). -/
def isDigitString : Option String → Bool
  | some s => s ≠ "" && s.toList.all Char.isDigit
  | none => false

/-- `parseInt(s, 10)` for a string of decimal digits. -/
def parseDecimal (s : String) : Nat :=
  s.toList.foldl (fun n c => n * 10 + (c.toNat - '0'.toNat)) 0

/-- `readRunProperties(element)`: builds the run-property record from the
`w:rPr` element, halving the half-point `w:sz` font size. -/
def readRunProperties (o : BodyOptions) (element : XmlNode) :
    PropsResult RunProperties :=
  (readRunStyle o element).map (fun style =>
    let fontSizeString := (element.firstOrEmpty "w:sz").attr "w:val"
    let fontSize : Option ℚ :=
      if isDigitString fontSizeString then
        some ((parseDecimal (fontSizeString.getD "") : ℚ) / 2)
      else none
    { styleId := style.styleId
      styleName := style.name
      verticalAlignment := (element.firstOrEmpty "w:vertAlign").attr "w:val"
      font := (element.firstOrEmpty "w:rFonts").attr "w:ascii"
      fontSize := fontSize
      color := (element.firstOrEmpty "w:color").attr "w:val"
      isBold := readBooleanElement (element.first "w:b")
      isUnderline := readUnderline (element.first "w:u")
      isItalic := readBooleanElement (element.first "w:i")
      isStrikethrough := readBooleanElement (element.first "w:strike")
      isAllCaps := readBooleanElement (element.first "w:caps")
      isSmallCaps := readBooleanElement (element.first "w:smallCaps")
      highlight := readHighlightValue ((element.firstOrEmpty "w:highlight").attr "w:val")
      shading := (element.firstOrEmpty "w:shd").attr "w:fill" })

/-- `readNumberingProperties(styleId, element, numbering)`: a `w:numPr`
with both `w:ilvl` and `w:numId` resolves through `findLevel` (null when
the level is unknown); otherwise a non-null paragraph style id resolves
through the reverse style index.  The bullet character of the style-based
branch defaults to the source's literal `"â€¢"` (the file's own encoding of
the bullet glyph). -/
def readNumberingProperties (styleId : Option String) (element : XmlNode)
    (numbering : NumberingInterface) : Option NumberingAttrs :=
  let level := (element.firstOrEmpty "w:ilvl").attr "w:val"
  let numId := (element.firstOrEmpty "w:numId").attr "w:val"
  match level, numId with
  | some level, some numId =>
    match numbering.findLevel numId level with
    | some levelInfo =>
      some { levelInfo := levelInfo
             numId := some numId
             isVisibleBulletList := numbering.isVisibleBulletList numId level
             bulletCharacter := numbering.getBulletCharacter numId level }
    | none => none
  | _, _ =>
    match styleId with
    | some styleId =>
      match numbering.findLevelByParagraphStyleId styleId with
      | some levelByStyleId =>
        some { levelInfo := levelByStyleId
               numId := none
               isVisibleBulletList := levelByStyleId.isBullet && !levelByStyleId.isTentative
               bulletCharacter :=
                 if levelByStyleId.isBullet then
                   some (if (levelByStyleId.delimiter.getD "") ≠ "" then
                     levelByStyleId.delimiter.getD "" else "â€¢")
                 else none }
      | none => none
    | none => none

/-- `readParagraphIndent(element)`. -/
def readParagraphIndent (element : XmlNode) : ParagraphIndent :=
  { left := element.attr "w:left"
    right := element.attr "w:right"
    start := element.attr "w:start"
    end_ := element.attr "w:end"
    firstLine := element.attr "w:firstLine"
    hanging := element.attr "w:hanging" }

/-- `readSpacingProperties(element)`: the `w:spacing` attributes of a
paragraph-properties element. -/
def readSpacingProperties (element : XmlNode) : SpacingProperties :=
  { after := (element.firstOrEmpty "w:spacing").attr "w:after"
    before := (element.firstOrEmpty "w:spacing").attr "w:before"
    line := (element.firstOrEmpty "w:spacing").attr "w:line"
    lineRule := (element.firstOrEmpty "w:spacing").attr "w:lineRule" }

/-- `readParagraphProperties(element)`: style, numbering, alignment,
indentation and spacing assembled from the `w:pPr` element. -/
def readParagraphProperties (o : BodyOptions) (element : XmlNode) :
    PropsResult ParagraphProperties :=
  (readParagraphStyle o element).map (fun style =>
    { styleId := style.styleId
      styleName := style.name
      alignment := (element.firstOrEmpty "w:jc").attr "w:val"
      numbering :=
        readNumberingProperties style.styleId (element.firstOrEmpty "w:numPr")
          o.numbering
      indent := readParagraphIndent (element.firstOrEmpty "w:ind")
      spacing := readSpacingProperties element })

/-! ## Complex fields and instruction-text parsing -/

/-- A stack entry of the complex-field state machine: pushed as `begin`
(keeping the `w:fldChar` element for checkbox data), reclassified into
`hyperlink`, `checkbox` or `unknown` when the instruction text is parsed. -/
inductive ComplexField where
  | begin (fldChar : XmlNode)
  | hyperlink (options : HyperlinkOptions)
  | checkbox (checked : Bool)
  | unknown

/-- Drop the given literal from the front of a character list, or `none`
when the list does not start with it. -/
def dropLit : List Char → List Char → Option (List Char)
  | [], s => some s
  | _ :: _, [] => none
  | p :: ps, c :: cs => if p = c then dropLit ps cs else none

/-- The remainder after the first occurrence of the (non-empty) literal
`pat`, or `none` when `pat` does not occur. -/
def afterFirstLit (pat : List Char) : List Char → Option (List Char)
  | [] => none
  | c :: cs =>
    match dropLit pat (c :: cs) with
    | some rest => some rest
    | none => afterFirstLit pat cs

/-- The remainder after the first occurrence of the character `ch`, or
`none`. -/
def afterFirstChar (ch : Char) : List Char → Option (List Char)
  | [] => none
  | c :: cs => if c = ch then some cs else afterFirstChar ch cs

/-- The part before the last occurrence of the character `ch`, or `none`
when `ch` does not occur. -/
def beforeLastChar (ch : Char) (s : List Char) : Option (List Char) :=
  (afterFirstChar ch s.reverse).map List.reverse

/-- The regex search `/\s*HYPERLINK "(.*)"/.exec(instrText)`: since `\s*`
also matches the empty string, the match reduces to locating the first
literal `HYPERLINK "` and taking the greedy capture up to the last double
quote after it (`.*` does not cross newlines; no embedded instruction text
contains one). -/
def execExternalHyperlink (instrText : String) : Option String :=
  (afterFirstLit "HYPERLINK \"".toList instrText.toList).bind
    (fun rest => (beforeLastChar '"' rest).map List.asString)

/-- JavaScript `\s` for the characters occurring in instruction text. -/
def isJsWhitespace (c : Char) : Bool :=
  c = ' ' ∨ c = '\t' ∨ c = '\n' ∨ c = '\r'

/-- The regex search `/\s*HYPERLINK\s+\\l\s+"(.*)"/.exec(instrText)`,
embedded at the first occurrence of `HYPERLINK` (the regex engine would
also try later occurrences; no input considered here has more than one). -/
def execInternalHyperlink (instrText : String) : Option String :=
  match afterFirstLit "HYPERLINK".toList instrText.toList with
  | none => none
  | some rest =>
    if (rest.takeWhile isJsWhitespace).length = 0 then none
    else
      match rest.dropWhile isJsWhitespace with
      | '\\' :: 'l' :: r2 =>
        if (r2.takeWhile isJsWhitespace).length = 0 then none
        else
          match r2.dropWhile isJsWhitespace with
          | '"' :: r4 => (beforeLastChar '"' r4).map List.asString
          | _ => none
      | _ => none

/-- The regex test `/\s*FORMCHECKBOX\s*/.exec(instrText)`: succeeds exactly
when the literal occurs. -/
def hasFormCheckbox (instrText : String) : Bool :=
  (afterFirstLit "FORMCHECKBOX".toList instrText.toList).isSome

/-- `parseInstrText(instrText, fldChar)`: classify the accumulated
instruction text as an external hyperlink, an internal (anchor) hyperlink,
a form checkbox (reading the checked state from the `w:fldChar`'s
`w:ffData`), or unknown. -/
def parseInstrText (instrText : String) (fldChar : XmlNode) : ComplexField :=
  match execExternalHyperlink instrText with
  | some href => .hyperlink ⟨some href, none, none⟩
  | none =>
    match execInternalHyperlink instrText with
    | some anchor => .hyperlink ⟨none, some anchor, none⟩
    | none =>
      if hasFormCheckbox instrText then
        let checkboxElement := (fldChar.firstOrEmpty "w:ffData").firstOrEmpty "w:checkBox"
        let checked :=
          match checkboxElement.first "w:checked" with
          | none => readBooleanElement (checkboxElement.first "w:default")
          | some checkedElement => readBooleanElement (some checkedElement)
        .checkbox checked
      else .unknown

/-- The mutable state of one `BodyReader` invocation.  The stack's head is
its top (the most recently pushed frame).  The `insertions`/`deletions`
arrays of the source are only ever appended to, never read, and are not
modelled. -/
structure BodyState where
  complexFieldStack : List ComplexField
  currentInstrText : List String
  deletedParagraphContents : List XmlNode

/-- The state of a freshly constructed `BodyReader`. -/
def initialBodyState : BodyState := ⟨[], [], []⟩

/-- `parseCurrentInstrText(complexField)`: parse the joined instruction
text, with the begin frame's `w:fldChar` (for checkbox data) or an empty
element. -/
def parseCurrentInstrText (s : BodyState) (complexField : ComplexField) : ComplexField :=
  parseInstrText (String.join s.currentInstrText)
    (match complexField with
     | .begin fldChar => fldChar
     | _ => XmlNode.emptyElement)

/-- The hyperlink options of a frame, when it is a hyperlink frame. -/
def ComplexField.hyperlinkOptions : ComplexField → Option HyperlinkOptions
  | .hyperlink options => some options
  | _ => none

/-- `currentHyperlinkOptions()`: the options of the innermost open
hyperlink frame (`_.last` over the push-ordered array, i.e. the first
hyperlink frame from the top of the stack). -/
def currentHyperlinkOptions (s : BodyState) : Option HyperlinkOptions :=
  s.complexFieldStack.findSome? ComplexField.hyperlinkOptions

/-- Outcome of reading one element: a result with the updated reader state,
a propagated JavaScript exception (popping an empty complex-field stack
makes the source throw on the `.type` access), or fuel exhaustion. -/
inductive ReadOutcome where
  | ok (result : ReadResult) (state : BodyState)
  | thrown
  | outOfFuel

/-- Outcome of mapping the reader over a sibling list, before combining. -/
inductive ReadListOutcome where
  | ok (results : List ReadResult) (state : BodyState)
  | thrown
  | outOfFuel

/-- `readFldChar(element)`: drive the complex-field state machine from the
`w:fldCharType` attribute; only a checkbox field emits a node (on `end`). -/
def readFldChar (s : BodyState) (element : XmlNode) : ReadOutcome :=
  match element.attr "w:fldCharType" with
  | some "begin" =>
    .ok emptyResult
      { s with complexFieldStack := .begin element :: s.complexFieldStack
               currentInstrText := [] }
  | some "end" =>
    match s.complexFieldStack with
    | [] => .thrown
    | top :: rest =>
      let complexFieldEnd :=
        match top with
        | .begin fldChar => parseCurrentInstrText s (.begin fldChar)
        | other => other
      match complexFieldEnd with
      | .checkbox checked =>
        .ok (elementResult (.checkbox checked)) { s with complexFieldStack := rest }
      | _ => .ok emptyResult { s with complexFieldStack := rest }
  | some "separate" =>
    match s.complexFieldStack with
    | [] => .thrown
    | top :: rest =>
      let complexField := parseCurrentInstrText s top
      .ok emptyResult { s with complexFieldStack := complexField :: rest }
  | _ => .ok emptyResult s

/-- `readInstrText(element)`: append the element's text to the
instruction-text buffer. -/
def readInstrText (s : BodyState) (element : XmlNode) : ReadOutcome :=
  .ok emptyResult { s with currentInstrText := s.currentInstrText ++ [element.textContent] }

/-- The fixed `ignoreElements` set: element names producing no node and no
warning. -/
def ignoreElements : List String :=
  ["office-word:wrap", "v:shadow", "v:shapetype", "w:annotationRef",
   "w:bookmarkEnd", "w:sectPr", "w:proofErr", "w:lastRenderedPageBreak",
   "w:del", "w:footnoteRef", "w:endnoteRef", "w:pPr", "w:rPr", "w:tblPr",
   "w:tblGrid", "w:trPr", "w:tcPr"]

/-- The `isDeleted` test of the `w:p` reader: the paragraph's own mark
(`w:pPr`/`w:rPr`) contains a `w:del` element. -/
def paragraphIsDeleted (element : XmlNode) : Bool :=
  (((element.firstOrEmpty "w:pPr").firstOrEmpty "w:rPr").first "w:del").isSome

mutual

/-- `readXmlElement(element)`: dispatch on the element name.  The embedded
dispatch table covers the entries exercised by this development (`w:p`,
`w:r`, `w:fldChar`, `w:instrText`, `w:t`, `w:delText`, `w:tab`,
`w:noBreakHyphen`, `w:softHyphen`, `w:br`, `w:bookmarkStart`); the source's
remaining entries (tables, hyperlink elements, images, revisions, symbols,
structured document tags) are not reached by any input considered here.
Unhandled names fall through to the ignore-list / unrecognised-element
policy; non-element nodes produce an empty result.  Fuel is spent on every
recursive call; a branch that makes no recursive call behaves identically
for every positive fuel value. -/
def readXmlElement (o : BodyOptions) : Nat → BodyState → XmlNode → ReadOutcome
  | 0, _, _ => .outOfFuel
  | fuel + 1, s, el =>
    match el with
    | .text _ => .ok emptyResult s
    | .element name attrs children =>
      match name with
      | "w:p" =>
        let element := XmlNode.element name attrs children
        if paragraphIsDeleted element then
          .ok emptyResult
            { s with deletedParagraphContents := s.deletedParagraphContents ++ children }
        else
          let childrenXml :=
            if s.deletedParagraphContents.length > 0 then
              s.deletedParagraphContents ++ children
            else children
          let s1 :=
            if s.deletedParagraphContents.length > 0 then
              { s with deletedParagraphContents := [] }
            else s
          match readXmlElements o fuel s1 childrenXml with
          | .ok childrenResult s2 =>
            .ok ((ReadResult.mapWith
                (readParagraphProperties o (element.firstOrEmpty "w:pPr"))
                childrenResult
                (fun properties ch => .paragraph ch properties)).insertExtra) s2
          | .thrown => .thrown
          | .outOfFuel => .outOfFuel
      | "w:r" =>
        match readXmlElements o fuel s children with
        | .ok childrenResult s1 =>
          .ok (ReadResult.mapWith
            (readRunProperties o ((XmlNode.element name attrs children).firstOrEmpty "w:rPr"))
            childrenResult
            (fun properties ch =>
              let wrapped :=
                match currentHyperlinkOptions s1 with
                | some hyperlinkOptions => [DocNode.hyperlink ch hyperlinkOptions]
                | none => ch
              .run wrapped properties)) s1
        | .thrown => .thrown
        | .outOfFuel => .outOfFuel
      | "w:fldChar" => readFldChar s (XmlNode.element name attrs children)
      | "w:instrText" => readInstrText s (XmlNode.element name attrs children)
      | "w:t" => .ok (elementResult (.text (XmlNode.element name attrs children).textContent)) s
      | "w:delText" => .ok (elementResult (.text (XmlNode.element name attrs children).textContent)) s
      | "w:tab" => .ok (elementResult .tab) s
      | "w:noBreakHyphen" => .ok (elementResult (.text "‑")) s
      | "w:softHyphen" => .ok (elementResult (.text "­")) s
      | "w:br" =>
        (match assocLookup attrs "w:type" with
         | none => .ok (elementResult .lineBreak) s
         | some "textWrapping" => .ok (elementResult .lineBreak) s
         | some "page" => .ok (elementResult .pageBreak) s
         | some "column" => .ok (elementResult .columnBreak) s
         | some breakType =>
           .ok (emptyResultWithMessages [.warning ("Unsupported break type: " ++ breakType)]) s)
      | "w:bookmarkStart" =>
        let bookmarkName := assocLookup attrs "w:name"
        if bookmarkName = some "_GoBack" then .ok emptyResult s
        else .ok (elementResult (.bookmarkStart bookmarkName)) s
      | _ =>
        if ignoreElements.contains name then .ok emptyResult s
        else
          .ok (emptyResultWithMessages
            [.warning ("An unrecognised element was ignored: " ++ name)]) s

/-- `elements.map(readXmlElement)`: read siblings left to right, threading
the reader state. -/
def readXmlElementList (o : BodyOptions) : Nat → BodyState → List XmlNode → ReadListOutcome
  | 0, _, _ => .outOfFuel
  | _ + 1, s, [] => .ok [] s
  | fuel + 1, s, el :: rest =>
    match readXmlElement o fuel s el with
    | .ok r s1 =>
      match readXmlElementList o fuel s1 rest with
      | .ok rs s2 => .ok (r :: rs) s2
      | .thrown => .thrown
      | .outOfFuel => .outOfFuel
    | .thrown => .thrown
    | .outOfFuel => .outOfFuel

/-- `readXmlElements(elements)`: map the reader over the siblings and
combine the results. -/
def readXmlElements (o : BodyOptions) : Nat → BodyState → List XmlNode → ReadOutcome
  | 0, _, _ => .outOfFuel
  | fuel + 1, s, elements =>
    match readXmlElementList o fuel s elements with
    | .ok results s1 => .ok (combineResults results) s1
    | .thrown => .thrown
    | .outOfFuel => .outOfFuel

end

/-! ## Concrete inputs and expected outputs for the reader claims -/

/-- A style registry with no entries (every lookup misses). -/
def emptyStyles : StylesInterface := ⟨fun _ => none, fun _ => none, fun _ => none⟩

/-- A numbering registry with no entries. -/
def emptyNumbering : NumberingInterface :=
  ⟨fun _ _ => none, fun _ => none, fun _ _ => false, fun _ _ => none⟩

/-- Reader options over the empty registries. -/
def trivialOptions : BodyOptions := ⟨emptyStyles, emptyNumbering, fun _ => none⟩

/-- The run properties of a run with no `w:rPr`. -/
def emptyRunProperties : RunProperties :=
  { styleId := none, styleName := none, verticalAlignment := none, font := none,
    fontSize := none, color := none, isBold := false, isUnderline := false,
    isItalic := false, isStrikethrough := false, isAllCaps := false,
    isSmallCaps := false, highlight := none, shading := none }

/-- The paragraph properties of a paragraph with no `w:pPr`. -/
def emptyParagraphProperties : ParagraphProperties :=
  { styleId := none, styleName := none, alignment := none, numbering := none,
    indent := ⟨none, none, none, none, none, none⟩,
    spacing := ⟨none, none, none, none⟩ }

/-- The children of a deleted paragraph containing the text "A": the
paragraph mark carrying `w:del` inside its run properties, and a run. -/
def delParaAChildren : List XmlNode :=
  [.element "w:pPr" [] [.element "w:rPr" [] [.element "w:del" [] []]],
   .element "w:r" [] [.element "w:t" [] [.text "A"]]]

/-- A paragraph whose own mark is marked deleted, containing text "A". -/
def delParaA : XmlNode := .element "w:p" [] delParaAChildren

/-- A normal paragraph containing text "B". -/
def normalParaB : XmlNode :=
  .element "w:p" [] [.element "w:r" [] [.element "w:t" [] [.text "B"]]]

/-- C1: a `w:p` whose own paragraph mark contains `w:del` produces no node
at all and buffers its XML children (for any options, fuel, state and
paragraph content), and the concrete sequence
`[deleted paragraph "A", normal paragraph "B"]` yields exactly one
Paragraph node whose children are the runs "A" then "B" (the buffered
children are read as a prefix, in original order, and the buffer is left
cleared). -/
theorem c1_deleted_paragraph_folded (o : BodyOptions) (fuel : Nat) (s : BodyState)
    (attrs : List (String × String)) (children : List XmlNode)
    (h : paragraphIsDeleted (.element "w:p" attrs children) = true) :
    readXmlElement o (fuel + 1) s (.element "w:p" attrs children) =
      .ok emptyResult
        { s with deletedParagraphContents := s.deletedParagraphContents ++ children } ∧
    readXmlElements trivialOptions 32 initialBodyState [delParaA, normalParaB] =
      .ok ⟨[.paragraph [.run [.text "A"] emptyRunProperties,
                        .run [.text "B"] emptyRunProperties]
              emptyParagraphProperties], [], []⟩ initialBodyState := by
  constructor
  · simp [readXmlElement, h]
  · rfl

/-- C1 witness: the general part of `c1_deleted_paragraph_folded` applied
to the concrete deleted paragraph. -/
theorem c1_witness :
    paragraphIsDeleted (.element "w:p" [] delParaAChildren) = true ∧
    (readXmlElement trivialOptions 5 initialBodyState (.element "w:p" [] delParaAChildren) =
      .ok emptyResult
        { initialBodyState with
            deletedParagraphContents :=
              initialBodyState.deletedParagraphContents ++ delParaAChildren } ∧
    readXmlElements trivialOptions 32 initialBodyState [delParaA, normalParaB] =
      .ok ⟨[.paragraph [.run [.text "A"] emptyRunProperties,
                        .run [.text "B"] emptyRunProperties]
              emptyParagraphProperties], [], []⟩ initialBodyState) :=
  ⟨rfl, c1_deleted_paragraph_folded trivialOptions 4 initialBodyState [] delParaAChildren rfl⟩

/-- A begin field-marker element. -/
def fldBegin : XmlNode := .element "w:fldChar" [("w:fldCharType", "begin")] []

/-- The instruction text `HYPERLINK "http://x"`. -/
def instrHyperlinkX : XmlNode :=
  .element "w:instrText" [] [.text "HYPERLINK \"http://x\""]

/-- A separate field-marker element. -/
def fldSeparate : XmlNode := .element "w:fldChar" [("w:fldCharType", "separate")] []

/-- An end field-marker element. -/
def fldEnd : XmlNode := .element "w:fldChar" [("w:fldCharType", "end")] []

/-- A run containing the given text. -/
def innerRun (t : String) : XmlNode :=
  .element "w:r" [] [.element "w:t" [] [.text t]]

/-- The hyperlink options parsed from `HYPERLINK "http://x"`. -/
def hrefX : HyperlinkOptions := ⟨some "http://x", none, none⟩

/-- The marker sequence of the C4 claim around the given inner runs. -/
def hyperlinkFieldSeq (runs : List XmlNode) : List XmlNode :=
  [fldBegin, instrHyperlinkX, fldSeparate] ++ runs ++ [fldEnd]

mutual

/-- The number of Hyperlink nodes in a document tree. -/
def countHyperlinks : DocNode → Nat
  | .hyperlink children _ => 1 + countHyperlinksList children
  | .run children _ => countHyperlinksList children
  | .paragraph children _ => countHyperlinksList children
  | .tableRow children _ => countHyperlinksList children
  | .tableCell children _ _ => countHyperlinksList children
  | _ => 0

/-- The number of Hyperlink nodes in a node list. -/
def countHyperlinksList : List DocNode → Nat
  | [] => 0
  | n :: rest => countHyperlinks n + countHyperlinksList rest

end

/-- The produced node list of an outcome (empty when no result). -/
def ReadOutcome.valueOf : ReadOutcome → List DocNode
  | .ok r _ => r.value
  | .thrown => []
  | .outOfFuel => []

/-- C4 counterexample: the claim says the field sequence around some inner
runs produces a single Hyperlink node wrapping those runs; with two inner
runs the reader produces two Hyperlink nodes — each run is wrapped
separately — so the output does not contain a single Hyperlink node. -/
theorem c4_counterexample_two_runs :
    countHyperlinksList (ReadOutcome.valueOf
        (readXmlElements trivialOptions 32 initialBodyState
          (hyperlinkFieldSeq [innerRun "a", innerRun "b"]))) = 2 ∧
    (2 : Nat) ≠ 1 := by
  exact ⟨rfl, by decide⟩

/-- C4 (amended): every Run read while the parsed hyperlink frame is the
innermost active one has its children wrapped in a Hyperlink node with
href "http://x", nested inside that Run; with a single inner run the
sequence produces exactly one Hyperlink node (wrapping that run's
children), and with two inner runs one Hyperlink node per run. -/
theorem c4_hyperlink_field_wraps_each_run :
    readXmlElements trivialOptions 32 initialBodyState
        (hyperlinkFieldSeq [innerRun "linked"]) =
      .ok ⟨[.run [.hyperlink [.text "linked"] hrefX] emptyRunProperties], [], []⟩
        ⟨[], ["HYPERLINK \"http://x\""], []⟩ ∧
    countHyperlinksList [DocNode.run [.hyperlink [.text "linked"] hrefX]
        emptyRunProperties] = 1 ∧
    readXmlElements trivialOptions 32 initialBodyState
        (hyperlinkFieldSeq [innerRun "a", innerRun "b"]) =
      .ok ⟨[.run [.hyperlink [.text "a"] hrefX] emptyRunProperties,
            .run [.hyperlink [.text "b"] hrefX] emptyRunProperties], [], []⟩
        ⟨[], ["HYPERLINK \"http://x\""], []⟩ := by
  exact ⟨rfl, rfl, rfl⟩

/-- C6: a style reference whose non-empty id misses the registry yields the
id with a null name and exactly one "undefined style" warning, and the
read returns normally. -/
theorem c6_undefined_style_warning (element styleEl : XmlNode)
    (styleTagName styleType styleId : String)
    (findStyleById : String → Option Style)
    (hfind : element.first styleTagName = some styleEl)
    (hval : styleEl.attr "w:val" = some styleId)
    (hne : styleId ≠ "")
    (hmiss : findStyleById styleId = none) :
    readStyle element styleTagName styleType findStyleById =
      ⟨⟨some styleId, none⟩, [undefinedStyleWarning styleType styleId]⟩ := by
  simp [readStyle, hfind, hval, hne, hmiss]

/-- A paragraph-properties element referencing the undefined style
"Heading1Missing". -/
def missingStylePPr : XmlNode :=
  .element "w:pPr" [] [.element "w:pStyle" [("w:val", "Heading1Missing")] []]

/-- C6 witness: `c6_undefined_style_warning` applied to a concrete
unresolvable reference over the empty style registry. -/
theorem c6_witness :
    (missingStylePPr.first "w:pStyle" =
        some (.element "w:pStyle" [("w:val", "Heading1Missing")] []) ∧
      (XmlNode.element "w:pStyle" [("w:val", "Heading1Missing")] []).attr "w:val" =
        some "Heading1Missing" ∧
      "Heading1Missing" ≠ "" ∧
      (fun _ => (none : Option Style)) "Heading1Missing" = none) ∧
    readStyle missingStylePPr "w:pStyle" "Paragraph" (fun _ => none) =
      ⟨⟨some "Heading1Missing", none⟩,
       [undefinedStyleWarning "Paragraph" "Heading1Missing"]⟩ :=
  ⟨⟨rfl, rfl, by decide, rfl⟩,
   c6_undefined_style_warning missingStylePPr
     (.element "w:pStyle" [("w:val", "Heading1Missing")] []) "w:pStyle"
     "Paragraph" "Heading1Missing" (fun _ => none) rfl rfl (by decide) rfl⟩

/-- C7: `combineResults` concatenates values and messages in input order
with nothing dropped, and combining any partition of the input into
consecutive sublists (each combined first, then the partial results
combined) yields the same flattened value and the same message sequence as
combining the whole list at once. -/
theorem c7_combineResults_order_preserving_monoid (results : List ReadResult)
    (parts : List (List ReadResult)) (h : parts.flatten = results) :
    (combineResults results).value = (results.map ReadResult.value).flatten ∧
    (combineResults results).messages = (results.map ReadResult.messages).flatten ∧
    (combineResults (parts.map combineResults)).value = (combineResults results).value ∧
    (combineResults (parts.map combineResults)).messages =
      (combineResults results).messages := by
  subst h
  refine ⟨rfl, rfl, ?_, ?_⟩
  · show (List.map ReadResult.value (parts.map combineResults)).flatten =
      (List.map ReadResult.value parts.flatten).flatten
    rw [List.map_map, List.map_flatten, List.flatten_flatten, List.map_map]
    rfl
  · show (List.map ReadResult.messages (parts.map combineResults)).flatten =
      (List.map ReadResult.messages parts.flatten).flatten
    rw [List.map_map, List.map_flatten, List.flatten_flatten, List.map_map]
    rfl

/-- Three results with distinct values and messages, for the C7 witness. -/
def sampleResults : List ReadResult :=
  [⟨[.text "1"], [], [.warning "w1"]⟩,
   ⟨[.text "2"], [], []⟩,
   ⟨[.text "3"], [], [.warning "w2", .warning "w3"]⟩]

/-- C7 witness: the theorem applied to a concrete partition of three
results into two consecutive sublists. -/
theorem c7_witness :
    ([sampleResults.take 1, sampleResults.drop 1].flatten = sampleResults) ∧
    ((combineResults sampleResults).value =
        (sampleResults.map ReadResult.value).flatten ∧
      (combineResults sampleResults).messages =
        (sampleResults.map ReadResult.messages).flatten ∧
      (combineResults ([sampleResults.take 1, sampleResults.drop 1].map combineResults)).value =
        (combineResults sampleResults).value ∧
      (combineResults ([sampleResults.take 1, sampleResults.drop 1].map combineResults)).messages =
        (combineResults sampleResults).messages) :=
  ⟨rfl, c7_combineResults_order_preserving_monoid sampleResults
    [sampleResults.take 1, sampleResults.drop 1] rfl⟩

/-- C10: a `w:bookmarkStart` element produces a BookmarkStart node carrying
its `w:name` attribute and no warning, except that the name "_GoBack"
produces no node and no warning; the reader state is unchanged either
way. -/
theorem c10_bookmarkStart (o : BodyOptions) (fuel : Nat) (s : BodyState)
    (attrs : List (String × String)) (children : List XmlNode) :
    readXmlElement o (fuel + 1) s (.element "w:bookmarkStart" attrs children) =
      .ok (if assocLookup attrs "w:name" = some "_GoBack" then emptyResult
        else elementResult (.bookmarkStart (assocLookup attrs "w:name"))) s := by
  by_cases h : assocLookup attrs "w:name" = some "_GoBack" <;>
    simp [readXmlElement, h]

/-! ## Table cell-merge reconstruction (calculateRowSpans) -/

/-- Whether a node is a table row (`row.type === documents.types.tableRow`). -/
def DocNode.isTableRow : DocNode → Bool
  | .tableRow _ _ => true
  | _ => false

/-- The children of a row node. -/
def DocNode.rowChildren : DocNode → List DocNode
  | .tableRow children _ => children
  | _ => []

/-- Whether a node is a table cell. -/
def DocNode.isTableCell : DocNode → Bool
  | .tableCell _ _ _ => true
  | _ => false

/-- The transient `_vMerge` expando of a cell. -/
def cellVMergeFlag : DocNode → Option Bool
  | .tableCell _ _ vMerge => vMerge
  | _ => none

/-- The column span of a cell (the walk only reaches cells, after the
non-cell check). -/
def cellColSpan : DocNode → Nat
  | .tableCell _ properties _ => properties.colSpan
  | _ => 1

/-- The transient state of one cell-merge walk: the column-index → owning
cell mapping (owners identified by (row index, cell index) position), the
row-span increments accumulated per owner, and the cells marked for
removal.  This reifies the in-place mutation of the source
(`columns[cellIndex].rowSpan++`, `cell._vMerge` as removal mark). -/
structure MergeWalkState where
  columns : List (Nat × (Nat × Nat))
  extraRowSpans : List ((Nat × Nat) × Nat)
  removed : List (Nat × Nat)

/-- The inner `row.children.forEach` of the first pass: a cell whose
`_vMerge` is truthy and whose column cursor has an owner increments that
owner's row span and is marked for removal; every other cell becomes the
new owner at its column cursor (its `_vMerge` set to false, i.e. kept).
The cursor advances by the cell's column span. -/
def walkCells (rowIdx : Nat) : Nat → Nat → List DocNode → MergeWalkState → MergeWalkState
  | _, _, [], st => st
  | cellIdx, colCursor, cell :: rest, st =>
    let st' :=
      if (cellVMergeFlag cell).getD false then
        match assocLookup st.columns colCursor with
        | some owner =>
          { st with
              extraRowSpans :=
                assocAssign st.extraRowSpans owner
                  ((assocLookup st.extraRowSpans owner).getD 0 + 1)
              removed := st.removed ++ [(rowIdx, cellIdx)] }
        | none => { st with columns := assocAssign st.columns colCursor (rowIdx, cellIdx) }
      else { st with columns := assocAssign st.columns colCursor (rowIdx, cellIdx) }
    walkCells rowIdx (cellIdx + 1) (colCursor + cellColSpan cell) rest st'

/-- The outer `rows.forEach` of the first pass. -/
def walkRows : Nat → List DocNode → MergeWalkState → MergeWalkState
  | _, [], st => st
  | rowIdx, row :: rest, st =>
    walkRows (rowIdx + 1) rest (walkCells rowIdx 0 0 row.rowChildren st)

/-- The second pass, per kept cell: apply the accumulated row-span
increment and delete the transient `_vMerge` expando. -/
def rebuildCell (st : MergeWalkState) (rowIdx cellIdx : Nat) : DocNode → DocNode
  | .tableCell children properties _ =>
    .tableCell children
      { properties with
          rowSpan := properties.rowSpan +
            (assocLookup st.extraRowSpans (rowIdx, cellIdx)).getD 0 }
      none
  | other => other

/-- The second pass, per row: strip the cells marked for removal and
rebuild the kept ones (cells keep their original index for the span
lookup). -/
def rebuildRow (st : MergeWalkState) (rowIdx : Nat) : DocNode → DocNode
  | .tableRow cells isHeader =>
    .tableRow
      ((cells.enum.filter
          (fun p => !(st.removed.contains (rowIdx, p.1)))).map
        (fun p => rebuildCell st rowIdx p.1 p.2))
      isHeader
  | other => other

/-- `calculateRowSpans(rows)`: the non-row / non-cell preconditions return
the rows unmodified with exactly one warning; otherwise the two passes run
and the final rows are returned with no message. -/
def calculateRowSpans (rows : List DocNode) : ReadResult :=
  if rows.any (fun row => !row.isTableRow) then
    ⟨rows, [],
     [.warning "unexpected non-row element in table, cell merging may be incorrect"]⟩
  else if rows.any (fun row => row.rowChildren.any (fun cell => !cell.isTableCell)) then
    ⟨rows, [],
     [.warning "unexpected non-cell element in table row, cell merging may be incorrect"]⟩
  else
    let st := walkRows 0 rows ⟨[], [], []⟩
    ⟨rows.enum.map (fun p => rebuildRow st p.1 p.2), [], []⟩

/-- Properties of a fresh unmerged single-column cell. -/
def cellProps1 : TableCellProperties := ⟨1, 1, none, none⟩

/-- A 2-row, 1-column table whose second-row cell is a "continue" vertical
merge. -/
def rows2x1 : List DocNode :=
  [.tableRow [.tableCell [] cellProps1 none] false,
   .tableRow [.tableCell [] cellProps1 (some true)] false]

/-- C3: `calculateRowSpans` preserves the number of rows for every input,
and on the 2-row, 1-column table whose second-row cell is a "continue"
merge it yields exactly one cell, owning its column with rowSpan 2, and a
second row with zero cells (and no warning). -/
theorem c3_calculateRowSpans_merge (rows : List DocNode) :
    ((calculateRowSpans rows).value).length = rows.length ∧
    calculateRowSpans rows2x1 =
      ⟨[.tableRow [.tableCell [] ⟨1, 2, none, none⟩ none] false,
        .tableRow [] false], [], []⟩ := by
  constructor
  · unfold calculateRowSpans
    split
    · rfl
    · split
      · rfl
      · simp
  · rfl

/-! ## Image reading (readImage) -/

/-- The `supportedImageTypes` map: the content types assumed displayable in
web browsers. -/
def supportedImageTypes : List String :=
  ["image/png", "image/gif", "image/jpeg", "image/svg+xml", "image/tiff"]

/-- The truthiness of `supportedImageTypes[contentType]`; an absent content
type (`undefined`) indexes nothing and is falsy. -/
def isSupportedImageType : Option String → Bool
  | some contentType => supportedImageTypes.contains contentType
  | none => false

/-- The compatibility warning of `readImage`; JavaScript string
concatenation renders an undefined content type as "undefined". -/
def imageTypeWarning (contentType : Option String) : Message :=
  .warning ("Image of type " ++ contentType.getD "undefined" ++
    " is unlikely to display in web browsers")

/-- An image file reference: the zip path plus (in the source) a byte
reading thunk, which is I/O and not modelled. -/
structure ImageFile where
  path : String

/-- `readImage(imageFile, altText, width, height, imageProperties, srcRect,
isCropped)`: always produces an Image node carrying the content type looked
up for the image path, with the compatibility warning exactly when that
content type is not in `supportedImageTypes` (the source passes the bare
warning instead of a one-element array; the `Result` machinery flattens it
to the same single message). -/
def readImage (o : BodyOptions) (imageFile : ImageFile) (altText : Option String)
    (width height : Option ℚ) (imageProperties : Option ImageFormatting)
    (srcRect : Option CropRect) (isCropped : Bool) : ReadResult :=
  let contentType := o.contentTypes imageFile.path
  let image := DocNode.image
    { path := imageFile.path, altText := altText, contentType := contentType,
      width := width, height := height, imageProperties := imageProperties,
      srcRect := srcRect, isCropped := isCropped }
  let warnings :=
    if isSupportedImageType contentType then [] else [imageTypeWarning contentType]
  elementResultWithMessages image warnings

/-- C9: `readImage` always produces exactly one Image node carrying the
looked-up content type; it emits exactly one compatibility warning when the
content type is outside {image/png, image/gif, image/jpeg, image/svg+xml,
image/tiff} and no warning when it is inside. -/
theorem c9_readImage_content_type_warning (o : BodyOptions) (imageFile : ImageFile)
    (altText : Option String) (width height : Option ℚ)
    (imageProperties : Option ImageFormatting) (srcRect : Option CropRect)
    (isCropped : Bool) :
    readImage o imageFile altText width height imageProperties srcRect isCropped =
      ⟨[.image { path := imageFile.path, altText := altText,
                 contentType := o.contentTypes imageFile.path,
                 width := width, height := height,
                 imageProperties := imageProperties, srcRect := srcRect,
                 isCropped := isCropped }], [],
        if isSupportedImageType (o.contentTypes imageFile.path) then []
        else [imageTypeWarning (o.contentTypes imageFile.path)]⟩ ∧
    (∀ contentType : String,
      isSupportedImageType (some contentType) = true ↔
        (contentType = "image/png" ∨ contentType = "image/gif" ∨
         contentType = "image/jpeg" ∨ contentType = "image/svg+xml" ∨
         contentType = "image/tiff")) := by
  constructor
  · rfl
  · intro contentType
    simp [isSupportedImageType, supportedImageTypes]

end Mammoth
